import Mathlib

/-!
Verification of the model-evaluation pipeline of the Data-Science-Process
repository (notebook `09-Develop-Machine-Learning-Models`, plus its PCA
variant).  The notebook's own helper functions (`null_accuracy_score`,
`show_cv_classification_report`, `export_model`) and the data flow of its
top-level cells (partitioning, scaling, grid and randomized search) are
embedded shallowly below; external library routines (`train_test_split`,
`cross_val_score`, the searchers) are modelled from the specification's
description of their contracts, since their code is not part of the
repository.  Machine floats are modelled by rationals.
-/

namespace DSP

/-- The notebook's global `CLASSIFICATION_TYPE = 'Binary'`. -/
def CLASSIFICATION_TYPE : String := "Binary"

/-- The notebook's global `hold_out_percent = 0.2`. -/
def hold_out_percent : ℚ := 1 / 5

/-- `labels[:,].astype(int).mean()`: the mean of the integer-cast label
values (a label series is modelled as a list of integers). -/
def intMean (labels : List ℤ) : ℚ := (labels.sum : ℚ) / (labels.length : ℚ)

/-- `labels.value_counts().head(1).item()`: the multiplicity of the most
frequent label value. -/
def topValueCount (labels : List ℤ) : ℕ :=
  (labels.map (fun v => labels.count v)).foldr max 0

/-- `null_accuracy_score(labels, classification_type)` from the notebook's
helper cell.  Both the `if` and the `elif` compare `classification_type`
with the global `CLASSIFICATION_TYPE`; the `else` raises `ValueError`.
A raised exception is modelled as `Except.error`. -/
def null_accuracy_score (labels : List ℤ) (classification_type : String) :
    Except String ℚ :=
  if classification_type = CLASSIFICATION_TYPE then
    Except.ok (max (intMean labels) (1 - intMean labels))
  else if classification_type = CLASSIFICATION_TYPE then
    Except.ok ((topValueCount labels : ℚ) / (labels.length : ℚ))
  else
    Except.error ("Bad input " ++ classification_type ++
      ". Must specify either Binary or Multiple.")

/-- Which of the three syntactic branches of `null_accuracy_score` runs. -/
inductive NullAccBranch
  | binaryBranch
  | multiBranch
  | errorBranch
deriving DecidableEq

/-- Instrumented evaluator of `null_accuracy_score`: returns the branch
taken together with the result, following the source text branch by
branch. -/
def null_accuracy_trace (labels : List ℤ) (classification_type : String) :
    NullAccBranch × Except String ℚ :=
  if classification_type = CLASSIFICATION_TYPE then
    (NullAccBranch.binaryBranch,
      Except.ok (max (intMean labels) (1 - intMean labels)))
  else if classification_type = CLASSIFICATION_TYPE then
    (NullAccBranch.multiBranch,
      Except.ok ((topValueCount labels : ℚ) / (labels.length : ℚ)))
  else
    (NullAccBranch.errorBranch,
      Except.error ("Bad input " ++ classification_type ++
        ". Must specify either Binary or Multiple."))

lemma sum_eq_count_one (labels : List ℤ)
    (h : ∀ x ∈ labels, x = 0 ∨ x = 1) :
    labels.sum = (labels.count 1 : ℤ) := by
  induction labels with
  | nil => simp
  | cons a t ih =>
    have ht : ∀ x ∈ t, x = 0 ∨ x = 1 := fun x hx => h x (List.mem_cons_of_mem a hx)
    rcases h a (List.mem_cons_self a t) with ha | ha <;>
      subst ha <;>
      (simp [List.count_cons, ih ht]; try omega)

/-- C2: for a nonempty 0/1 label series, `null_accuracy_score labels "Binary"`
returns `max p (1 - p)` where `p` is the fraction of positive (value 1)
records. -/
theorem null_accuracy_binary_eq (labels : List ℤ) (_hne : labels ≠ [])
    (hb : ∀ x ∈ labels, x = 0 ∨ x = 1) :
    null_accuracy_score labels "Binary" =
      Except.ok (max ((labels.count 1 : ℚ) / (labels.length : ℚ))
        (1 - (labels.count 1 : ℚ) / (labels.length : ℚ))) := by
  have hsum := sum_eq_count_one labels hb
  simp only [null_accuracy_score, CLASSIFICATION_TYPE, if_pos rfl, intMean, hsum]
  push_cast
  rfl

/-- Witness for C2 at the spec's example `[1,1,1,0]`: the hypotheses hold
there and the score is 0.75. -/
theorem null_accuracy_binary_eq_witness :
    (([1, 1, 1, 0] : List ℤ) ≠ [] ∧ ∀ x ∈ ([1, 1, 1, 0] : List ℤ), x = 0 ∨ x = 1) ∧
    null_accuracy_score [1, 1, 1, 0] "Binary" = Except.ok (3 / 4 : ℚ) := by
  refine ⟨⟨by decide, by decide⟩, ?_⟩
  rw [null_accuracy_binary_eq [1, 1, 1, 0] (by decide) (by decide)]
  norm_num

/-- C3 (code bug): calling `null_accuracy_score` with the documented-valid
classification type `"Multiple"` raises the `ValueError` instead of
computing a score, because the `elif` repeats the `if` condition and
`"Multiple"` falls through to the `else`. -/
theorem null_accuracy_multiple_raises :
    null_accuracy_score [1, 1, 1, 0] "Multiple" =
      Except.error "Bad input Multiple. Must specify either Binary or Multiple." := by
  rfl

/-- C4: the `elif` branch of `null_accuracy_score` (the multi-class path)
is unreachable: for every labels list and every classification-type string
the instrumented evaluator never takes `multiBranch`, and it agrees with
`null_accuracy_score` on the result. -/
theorem null_accuracy_multi_branch_unreachable (labels : List ℤ)
    (classification_type : String) :
    (null_accuracy_trace labels classification_type).1 ≠ NullAccBranch.multiBranch ∧
    (null_accuracy_trace labels classification_type).2 =
      null_accuracy_score labels classification_type := by
  by_cases h : classification_type = CLASSIFICATION_TYPE <;>
    simp [null_accuracy_trace, null_accuracy_score, h]

/-! ## Dataset partitioning

`train_test_split` is external library code (scikit-learn), so it is
modelled from the spec: "partitioning is a uniform random permutation
governed by `seed` (same seed ⇒ identical split across runs)", with the
test partition of size `ceil(test_size * n)` taken from the front of the
permutation and the rest kept for training.  When no seed is supplied the
library falls back to ambient global randomness, modelled by an explicit
`env` value. -/

/-- One step of a 64-bit linear congruential generator, driving the
seeded permutation. -/
def lcgStep (s : ℕ) : ℕ := (6364136223846793005 * s + 1442695040888963407) % 2 ^ 64

/-- Seeded Fisher-Yates shuffle, fuelled by the list length. -/
def shuffleGo {α : Type} : ℕ → List α → ℕ → List α
  | 0, xs, _ => xs
  | n + 1, xs, s =>
    match xs[s % xs.length]? with
    | none => xs
    | some a => a :: shuffleGo n (xs.eraseIdx (s % xs.length)) (lcgStep s)

/-- Modelled from the spec: the uniform random permutation governed by a
seed that underlies `train_test_split`. -/
def shuffleSeeded {α : Type} (xs : List α) (s : ℕ) : List α :=
  shuffleGo xs.length xs s

/-- `ceil(test_size * n)`: the number of records placed in the test
(second) partition. -/
def n_test_count (test_size : ℚ) (n : ℕ) : ℕ := (⌈test_size * (n : ℚ)⌉).toNat

/-- Modelled from the spec: `train_test_split(X, y, test_size, random_state)`.
Returns `(kept, test)`.  `random_state = some s` pins the permutation to
seed `s`; `random_state = none` uses the ambient environment `env`. -/
def train_test_split {α : Type} (ds : List α) (test_size : ℚ)
    (random_state : Option ℕ) (env : ℕ) : List α × List α :=
  let seed := random_state.getD env
  let perm := shuffleSeeded ds seed
  let k := n_test_count test_size ds.length
  (perm.drop k, perm.take k)

/-- The notebook's two-stage partition: first carve off the hold-out set
(`X, X_eval, y, y_eval = train_test_split(X, y, test_size=hold_out_percent,
random_state=42)`), then split the remainder into train and test
(`X_train, X_test, y_train, y_test = train_test_split(X, y, test_size=0.2,
random_state=42)`).  Returns `(train, test, holdout)`. -/
def two_stage_split {α : Type} (ds : List α) (f1 f2 : ℚ)
    (s1 s2 : Option ℕ) (env : ℕ) : List α × List α × List α :=
  let p1 := train_test_split ds f1 s1 env
  let p2 := train_test_split p1.1 f2 s2 env
  (p2.1, p2.2, p1.2)

/-- The hold-out component of the two-stage split. -/
def split_holdout {α : Type} (ds : List α) (f1 f2 : ℚ)
    (s1 s2 : Option ℕ) (env : ℕ) : List α :=
  (two_stage_split ds f1 f2 s1 s2 env).2.2

/-- The train component of the two-stage split. -/
def split_train {α : Type} (ds : List α) (f1 f2 : ℚ)
    (s1 s2 : Option ℕ) (env : ℕ) : List α :=
  (two_stage_split ds f1 f2 s1 s2 env).1

/-- The test component of the two-stage split. -/
def split_test {α : Type} (ds : List α) (f1 f2 : ℚ)
    (s1 s2 : Option ℕ) (env : ℕ) : List α :=
  (two_stage_split ds f1 f2 s1 s2 env).2.1

/-- The data the notebook passes to `grid.fit(X, y)` (and to the baseline
KNN `cross_val_score` calls): at that point in the cell order `X, y` are
still the FULL dataset, because the hold-out carve-off only happens in a
later cell, which rebinds `X, y`. -/
def grid_search_fit_data {α : Type} (ds : List α) : List α := ds

lemma shuffleGo_perm {α : Type} :
    ∀ (n : ℕ) (xs : List α) (s : ℕ), List.Perm (shuffleGo n xs s) xs := by
  intro n
  induction n with
  | zero => intro xs s; simp [shuffleGo]
  | succ n ih =>
    intro xs s
    rw [shuffleGo]
    rcases h : xs[s % xs.length]? with _ | a
    · exact List.Perm.refl xs
    · obtain ⟨hlt, ha⟩ := List.getElem?_eq_some_iff.mp h
      have hx : xs.take (s % xs.length) ++ a :: xs.drop (s % xs.length + 1) = xs := by
        rw [← ha, ← List.drop_eq_getElem_cons hlt, List.take_append_drop]
      refine List.Perm.trans (List.Perm.cons a (ih _ _)) ?_
      rw [List.eraseIdx_eq_take_drop_succ]
      conv_rhs => rw [← hx]
      exact List.perm_middle.symm

lemma shuffleSeeded_perm {α : Type} (xs : List α) (s : ℕ) :
    List.Perm (shuffleSeeded xs s) xs := shuffleGo_perm xs.length xs s

lemma shuffleSeeded_length {α : Type} (xs : List α) (s : ℕ) :
    (shuffleSeeded xs s).length = xs.length :=
  (shuffleSeeded_perm xs s).length_eq

lemma shuffleSeeded_nodup {α : Type} {xs : List α} (h : xs.Nodup) (s : ℕ) :
    (shuffleSeeded xs s).Nodup := ((shuffleSeeded_perm xs s).nodup_iff).mpr h

lemma n_test_count_le {f : ℚ} (h : f < 1) (n : ℕ) : n_test_count f n ≤ n := by
  unfold n_test_count
  have h1 : f * (n : ℚ) ≤ (n : ℚ) := by
    calc f * (n : ℚ) ≤ 1 * (n : ℚ) :=
          mul_le_mul_of_nonneg_right (le_of_lt h) (Nat.cast_nonneg n)
      _ = (n : ℚ) := one_mul _
  have h2 : ⌈f * (n : ℚ)⌉ ≤ (n : ℤ) := by
    calc ⌈f * (n : ℚ)⌉ ≤ ⌈(n : ℚ)⌉ := Int.ceil_le_ceil h1
      _ = (n : ℤ) := Int.ceil_natCast n
  exact Int.toNat_le.mpr h2

lemma n_test_count_pos {f : ℚ} (hf : 0 < f) {n : ℕ} (hn : 1 ≤ n) :
    1 ≤ n_test_count f n := by
  unfold n_test_count
  have hq : (0 : ℚ) < f * (n : ℚ) := by
    apply mul_pos hf
    exact_mod_cast Nat.lt_of_lt_of_le Nat.zero_lt_one hn
  have := Int.ceil_pos.mpr hq
  omega

lemma split_components {α : Type} (ds : List α) (f1 f2 : ℚ) (s1 s2 env : ℕ) :
    split_holdout ds f1 f2 (some s1) (some s2) env =
        (shuffleSeeded ds s1).take (n_test_count f1 ds.length) ∧
    split_train ds f1 f2 (some s1) (some s2) env =
        (shuffleSeeded ((shuffleSeeded ds s1).drop (n_test_count f1 ds.length)) s2).drop
          (n_test_count f2 (ds.length - n_test_count f1 ds.length)) ∧
    split_test ds f1 f2 (some s1) (some s2) env =
        (shuffleSeeded ((shuffleSeeded ds s1).drop (n_test_count f1 ds.length)) s2).take
          (n_test_count f2 (ds.length - n_test_count f1 ds.length)) := by
  have hlen : ((shuffleSeeded ds s1).drop (n_test_count f1 ds.length)).length
      = ds.length - n_test_count f1 ds.length := by
    rw [List.length_drop, shuffleSeeded_length]
  refine ⟨rfl, ?_, ?_⟩ <;>
    simp [split_train, split_test, two_stage_split, train_test_split, hlen]

lemma split_lengths {α : Type} (ds : List α) (f1 f2 : ℚ) (s1 s2 env : ℕ)
    (h2 : f1 < 1) (h4 : f2 < 1) :
    (split_holdout ds f1 f2 (some s1) (some s2) env).length =
        n_test_count f1 ds.length ∧
    (split_test ds f1 f2 (some s1) (some s2) env).length =
        n_test_count f2 (ds.length - n_test_count f1 ds.length) ∧
    (split_train ds f1 f2 (some s1) (some s2) env).length =
        ds.length - n_test_count f1 ds.length -
          n_test_count f2 (ds.length - n_test_count f1 ds.length) := by
  obtain ⟨hh, htr, hte⟩ := split_components ds f1 f2 s1 s2 env
  have hk1 := n_test_count_le h2 ds.length
  have hk2 := n_test_count_le h4 (ds.length - n_test_count f1 ds.length)
  rw [hh, htr, hte]
  simp only [List.length_take, List.length_drop, shuffleSeeded_length]
  refine ⟨?_, ?_, ?_⟩
  · omega
  · exact Nat.min_eq_left hk2
  · trivial

/-- C7: with a fixed seed (`random_state=42` at both stages, as in the
notebook), performing the two-stage split twice yields identical
partitions, whatever the ambient randomness of the two runs: the train,
test and hold-out components are element-wise equal. -/
theorem split_seed_deterministic {α : Type} (ds : List α) (f1 f2 : ℚ)
    (s1 s2 env1 env2 : ℕ) (_h1 : 0 < f1) (_h2 : f1 < 1)
    (_h3 : 0 < f2) (_h4 : f2 < 1) :
    split_train ds f1 f2 (some s1) (some s2) env1 =
        split_train ds f1 f2 (some s1) (some s2) env2 ∧
    split_test ds f1 f2 (some s1) (some s2) env1 =
        split_test ds f1 f2 (some s1) (some s2) env2 ∧
    split_holdout ds f1 f2 (some s1) (some s2) env1 =
        split_holdout ds f1 f2 (some s1) (some s2) env2 :=
  ⟨rfl, rfl, rfl⟩

/-- Witness for C7 on a concrete five-record dataset, fractions 1/5,
seed 42, with two different ambient environments. -/
theorem split_seed_deterministic_witness :
    ((0 : ℚ) < 1 / 5 ∧ (1 / 5 : ℚ) < 1) ∧
    split_train ([10, 11, 12, 13, 14] : List ℕ) (1 / 5) (1 / 5)
        (some 42) (some 42) 0 =
      split_train ([10, 11, 12, 13, 14] : List ℕ) (1 / 5) (1 / 5)
        (some 42) (some 42) 99 := by
  refine ⟨⟨by norm_num, by norm_num⟩, ?_⟩
  exact (split_seed_deterministic ([10, 11, 12, 13, 14] : List ℕ) (1 / 5) (1 / 5)
    42 42 0 99 (by norm_num) (by norm_num) (by norm_num) (by norm_num)).1

/-- C8: the two-stage partition is exhaustive and pairwise disjoint:
`|train| + |test| + |holdout| = |dataset|` for any fractions in (0,1);
and on a 100-record dataset with hold-out fraction 0.2 followed by a
0.2 test fraction on the remainder, the hold-out has exactly 20
records, the train set 64, and the test set 16. -/
theorem two_stage_split_partition {α : Type} (ds : List α) (f1 f2 : ℚ)
    (s1 s2 env : ℕ) (hd : ds.Nodup) (_h1 : 0 < f1) (h2 : f1 < 1)
    (_h3 : 0 < f2) (h4 : f2 < 1) :
    ((split_train ds f1 f2 (some s1) (some s2) env).length +
        (split_test ds f1 f2 (some s1) (some s2) env).length +
        (split_holdout ds f1 f2 (some s1) (some s2) env).length = ds.length ∧
      List.Disjoint (split_train ds f1 f2 (some s1) (some s2) env)
        (split_test ds f1 f2 (some s1) (some s2) env) ∧
      List.Disjoint (split_train ds f1 f2 (some s1) (some s2) env)
        (split_holdout ds f1 f2 (some s1) (some s2) env) ∧
      List.Disjoint (split_test ds f1 f2 (some s1) (some s2) env)
        (split_holdout ds f1 f2 (some s1) (some s2) env)) ∧
    (ds.length = 100 → f1 = 1 / 5 → f2 = 1 / 5 →
      (split_holdout ds f1 f2 (some s1) (some s2) env).length = 20 ∧
      (split_train ds f1 f2 (some s1) (some s2) env).length = 64 ∧
      (split_test ds f1 f2 (some s1) (some s2) env).length = 16) := by
  obtain ⟨hh, htr, hte⟩ := split_components ds f1 f2 s1 s2 env
  obtain ⟨hlh, hlte, hltr⟩ := split_lengths ds f1 f2 s1 s2 env h2 h4
  have hk1 := n_test_count_le h2 ds.length
  have hk2 := n_test_count_le h4 (ds.length - n_test_count f1 ds.length)
  have hP1 : (shuffleSeeded ds s1).Nodup := shuffleSeeded_nodup hd s1
  have hpool : ((shuffleSeeded ds s1).drop (n_test_count f1 ds.length)).Nodup :=
    (List.drop_sublist _ _).nodup hP1
  have hP2 : (shuffleSeeded ((shuffleSeeded ds s1).drop (n_test_count f1 ds.length)) s2).Nodup :=
    shuffleSeeded_nodup hpool s2
  have hdisj_pool_holdout :
      List.Disjoint ((shuffleSeeded ds s1).drop (n_test_count f1 ds.length))
        ((shuffleSeeded ds s1).take (n_test_count f1 ds.length)) :=
    (List.disjoint_take_drop hP1 le_rfl).symm
  have hsubP2 : ∀ r ∈ shuffleSeeded ((shuffleSeeded ds s1).drop (n_test_count f1 ds.length)) s2,
      r ∈ (shuffleSeeded ds s1).drop (n_test_count f1 ds.length) :=
    fun r hr => (shuffleSeeded_perm _ s2).subset hr
  refine ⟨⟨?_, ?_, ?_, ?_⟩, ?_⟩
  · rw [hlh, hlte, hltr]; omega
  · rw [htr, hte]
    exact (List.disjoint_take_drop hP2 le_rfl).symm
  · rw [htr, hh]
    intro r hrtrain hrhold
    exact hdisj_pool_holdout (hsubP2 r (List.drop_subset _ _ hrtrain)) hrhold
  · rw [hte, hh]
    intro r hrtest hrhold
    exact hdisj_pool_holdout (hsubP2 r (List.take_subset _ _ hrtest)) hrhold
  · intro hn hf1 hf2
    subst hf1; subst hf2
    have e1 : n_test_count (1 / 5 : ℚ) 100 = 20 := by
      unfold n_test_count
      have h20 : (1 / 5 : ℚ) * ((100 : ℕ) : ℚ) = (20 : ℤ) := by norm_num
      rw [h20]
      simp
    have e2 : n_test_count (1 / 5 : ℚ) 80 = 16 := by
      unfold n_test_count
      have h16 : (1 / 5 : ℚ) * ((80 : ℕ) : ℚ) = (16 : ℤ) := by norm_num
      rw [h16]
      simp
    rw [hlh, hlte, hltr, hn]
    simp only [e1]
    norm_num [e2]

/-- Witness for C8 on the 100-record dataset `List.range 100`. -/
theorem two_stage_split_partition_witness :
    ((List.range 100).Nodup ∧ (0 : ℚ) < 1 / 5 ∧ (1 / 5 : ℚ) < 1 ∧
      (List.range 100).length = 100) ∧
    ((split_holdout (List.range 100) (1 / 5) (1 / 5) (some 42) (some 42) 0).length = 20 ∧
      (split_train (List.range 100) (1 / 5) (1 / 5) (some 42) (some 42) 0).length = 64 ∧
      (split_test (List.range 100) (1 / 5) (1 / 5) (some 42) (some 42) 0).length = 16) := by
  refine ⟨⟨List.nodup_range 100, by norm_num, by norm_num, List.length_range 100⟩, ?_⟩
  exact (two_stage_split_partition (List.range 100) (1 / 5) (1 / 5) 42 42 0
    (List.nodup_range 100) (by norm_num) (by norm_num) (by norm_num) (by norm_num)).2
    (List.length_range 100) rfl rfl

/-- C1 (code bug): in the notebook's cell order, `grid.fit(X, y)` (the
KNN hyper-parameter grid search) runs on the full dataset BEFORE the
hold-out split rebinds `X, y`; hence the hold-out partition is nonempty
and every one of its records participated in the grid-search fit. -/
theorem holdout_records_in_grid_search_fit {α : Type} (ds : List α)
    (f2 : ℚ) (s1 s2 env : ℕ) (hn : 1 ≤ ds.length) :
    split_holdout ds hold_out_percent f2 (some s1) (some s2) env ≠ [] ∧
    ∀ r ∈ split_holdout ds hold_out_percent f2 (some s1) (some s2) env,
      r ∈ grid_search_fit_data ds := by
  obtain ⟨hh, -, -⟩ := split_components ds hold_out_percent f2 s1 s2 env
  constructor
  · rw [hh]
    have hk : 1 ≤ n_test_count hold_out_percent ds.length :=
      n_test_count_pos (by norm_num [hold_out_percent]) hn
    intro hempty
    have hlen := congrArg List.length hempty
    rw [List.length_take, shuffleSeeded_length] at hlen
    simp only [List.length_nil] at hlen
    omega
  · intro r hr
    rw [hh] at hr
    exact (shuffleSeeded_perm ds s1).subset (List.take_subset _ _ hr)

/-- Witness for C1 on a concrete five-record dataset. -/
theorem holdout_records_in_grid_search_fit_witness :
    1 ≤ ([10, 11, 12, 13, 14] : List ℕ).length ∧
    (split_holdout ([10, 11, 12, 13, 14] : List ℕ) hold_out_percent (1 / 5)
        (some 42) (some 42) 0 ≠ [] ∧
      ∀ r ∈ split_holdout ([10, 11, 12, 13, 14] : List ℕ) hold_out_percent (1 / 5)
        (some 42) (some 42) 0,
        r ∈ grid_search_fit_data ([10, 11, 12, 13, 14] : List ℕ)) :=
  ⟨by decide,
    holdout_records_in_grid_search_fit ([10, 11, 12, 13, 14] : List ℕ)
      (1 / 5) 42 42 0 (by decide)⟩

/-! ## K-fold cross-validation and the CV classification report

`cross_val_score` is external library code (scikit-learn), so the K-fold
mechanics are modelled from the spec: "partition data into K folds, train
on K-1, validate on the remainder, rotate"; fold sizes follow the
standard allocation (the first `n % K` folds get `n / K + 1` records,
the rest `n / K`).  A fit/evaluate cycle is represented by its validation
slice, a list of record indices. -/

/-- The K fold sizes for `n` records: the first `n % K` folds have
`n / K + 1` records, the remaining `K - n % K` have `n / K`. -/
def foldSizes (n K : ℕ) : List ℕ :=
  List.replicate (n % K) (n / K + 1) ++ List.replicate (K - n % K) (n / K)

/-- Cut a list into consecutive chunks of the given sizes. -/
def splitSizes {α : Type} : List ℕ → List α → List (List α)
  | [], _ => []
  | s :: ss, xs => xs.take s :: splitSizes ss (xs.drop s)

/-- The K validation slices (index lists) of K-fold cross-validation on
`n` records. -/
def kfold_slices (n K : ℕ) : List (List ℕ) :=
  splitSizes (foldSizes n K) (List.range n)

/-- Modelled from the spec: `cross_val_score(classifier, X, y, scoring, cv=K)`
runs one fit/evaluate cycle per fold; each cycle is represented by its
validation slice over the `n` records of `X`. -/
def cross_val_score (n K : ℕ) : List (List ℕ) := kfold_slices n K

/-- The four scorings `show_cv_classification_report` computes, in source
order. -/
def cv_scorings : List String :=
  ["accuracy", "precision_weighted", "recall_weighted", "f1_weighted"]

/-- `show_cv_classification_report(classifier, X, y, K)`: one
`cross_val_score` call per scoring, each with `cv=K` over the same `n`
records. -/
def show_cv_classification_report (n K : ℕ) : List (String × List (List ℕ)) :=
  cv_scorings.map (fun sc => (sc, cross_val_score n K))

/-- Total number of fit/evaluate cycles `show_cv_classification_report`
performs. -/
def cv_fit_cycles (n K : ℕ) : ℕ :=
  ((show_cv_classification_report n K).map (fun p => p.2.length)).sum

lemma foldSizes_sum (n K : ℕ) (hK : 0 < K) : (foldSizes n K).sum = n := by
  have hmod : n % K < K := Nat.mod_lt n hK
  have hdm : K * (n / K) + n % K = n := Nat.div_add_mod n K
  have hmul : (n % K) * (n / K) ≤ K * (n / K) :=
    Nat.mul_le_mul_right _ (Nat.le_of_lt hmod)
  simp only [foldSizes, List.sum_append, List.sum_replicate, smul_eq_mul]
  calc n % K * (n / K + 1) + (K - n % K) * (n / K)
      = n % K * (n / K) + n % K + (K * (n / K) - n % K * (n / K)) := by
        rw [Nat.mul_succ, Nat.sub_mul]
    _ = n := by omega

lemma foldSizes_length (n K : ℕ) (hK : 0 < K) : (foldSizes n K).length = K := by
  have hmod : n % K < K := Nat.mod_lt n hK
  simp only [foldSizes, List.length_append, List.length_replicate]
  omega

lemma splitSizes_length {α : Type} :
    ∀ (ss : List ℕ) (xs : List α), (splitSizes ss xs).length = ss.length
  | [], _ => rfl
  | _ :: ss, xs => by simp [splitSizes, splitSizes_length ss]

lemma splitSizes_flatten {α : Type} :
    ∀ (ss : List ℕ) (xs : List α), ss.sum = xs.length →
      (splitSizes ss xs).flatten = xs
  | [], xs, h => by
    simp at h
    simp [splitSizes, List.eq_nil_of_length_eq_zero h.symm]
  | s :: ss, xs, h => by
    simp only [List.sum_cons] at h
    simp only [splitSizes, List.flatten_cons]
    rw [splitSizes_flatten ss (xs.drop s) (by simp only [List.length_drop]; omega),
      List.take_append_drop]

lemma splitSizes_lengths {α : Type} :
    ∀ (ss : List ℕ) (xs : List α), ss.sum ≤ xs.length →
      (splitSizes ss xs).map List.length = ss
  | [], _, _ => rfl
  | s :: ss, xs, h => by
    simp only [List.sum_cons] at h
    simp only [splitSizes, List.map_cons, List.length_take]
    rw [splitSizes_lengths ss (xs.drop s) (by simp only [List.length_drop]; omega)]
    congr 1
    omega

lemma kfold_slices_spec (n : ℕ) (K : ℕ) (hK : 0 < K) :
    (kfold_slices n K).length = K ∧
    (kfold_slices n K).flatten = List.range n ∧
    ∀ f ∈ kfold_slices n K, f.length = n / K ∨ f.length = n / K + 1 := by
  have hsum : (foldSizes n K).sum = n := foldSizes_sum n K hK
  have hlen : (List.range n).length = n := List.length_range n
  refine ⟨?_, ?_, ?_⟩
  · rw [kfold_slices, splitSizes_length, foldSizes_length n K hK]
  · exact splitSizes_flatten _ _ (by rw [hsum, hlen])
  · intro f hf
    have hmap : (kfold_slices n K).map List.length = foldSizes n K :=
      splitSizes_lengths _ _ (by rw [hsum, hlen])
    have hmem : f.length ∈ foldSizes n K := by
      rw [← hmap]
      exact List.mem_map_of_mem List.length hf
    simp only [foldSizes, List.mem_append, List.mem_replicate] at hmem
    rcases hmem with ⟨-, h⟩ | ⟨-, h⟩
    · right; exact h
    · left; exact h

/-- C5 counterexample: on 64 records with K = 10 (the notebook's
`show_cv_classification_report(rfc, X, y, 10)` setting),
the report routine performs 40 fit/evaluate cycles — one `cross_val_score`
per scoring, four scorings, ten folds each — not 10 as claimed. -/
theorem cv_report_cycles_counterexample :
    cv_fit_cycles 64 10 = 40 ∧ cv_fit_cycles 64 10 ≠ 10 := by
  constructor <;> decide

/-- C5 (amended): `show_cv_classification_report` with K = 10 runs one
10-fold cross-validation pass per scoring (accuracy, weighted precision,
recall, F1) — 40 fit/evaluate cycles in total; within each pass the 10
validation slices are nonempty, of size `n/10` or `n/10 + 1`, pairwise
disjoint, and their concatenation in order is exactly the dataset
`List.range n`. -/
theorem cv_report_folds (n : ℕ) (hn : 10 ≤ n) :
    cv_fit_cycles n 10 = 40 ∧
    ∀ p ∈ show_cv_classification_report n 10,
      p.2.length = 10 ∧
      p.2.flatten = List.range n ∧
      List.Pairwise List.Disjoint p.2 ∧
      ∀ f ∈ p.2, (f.length = n / 10 ∨ f.length = n / 10 + 1) ∧ f ≠ [] := by
  obtain ⟨hlen, hflat, hsizes⟩ := kfold_slices_spec n 10 (by norm_num)
  constructor
  · simp [cv_fit_cycles, show_cv_classification_report, cv_scorings,
      cross_val_score, hlen]
  · intro p hp
    have hp2 : p.2 = kfold_slices n 10 := by
      simp only [show_cv_classification_report, cv_scorings, List.mem_map,
        cross_val_score] at hp
      obtain ⟨sc, -, rfl⟩ := hp
      rfl
    rw [hp2]
    have hnodup : (kfold_slices n 10).flatten.Nodup := by
      rw [hflat]; exact List.nodup_range n
    refine ⟨hlen, hflat, (List.nodup_flatten.mp hnodup).2, ?_⟩
    intro f hf
    refine ⟨hsizes f hf, ?_⟩
    intro hfnil
    have h1 : 1 ≤ n / 10 := Nat.one_le_div_iff (by norm_num) |>.mpr hn
    have := hsizes f hf
    rw [hfnil] at this
    simp only [List.length_nil] at this
    omega

/-- Witness for C5 at the notebook's 64-record training set size. -/
theorem cv_report_folds_witness :
    10 ≤ 64 ∧ cv_fit_cycles 64 10 = 40 := by
  refine ⟨by norm_num, ?_⟩
  exact (cv_report_folds 64 (by norm_num)).1

/-! ## Randomized hyperparameter search

`RandomizedSearchCV` is external library code (scikit-learn), so it is
modelled from the spec: it "draws N configurations uniformly at random
(seeded for reproducibility)" from the configuration space, without
duplication when N does not exceed the space size, "and evaluates each via
K-fold cross-validation" on the data it is fit on — which in the notebook
is the training subset (`rand.fit(X_train, y_train)`). -/

/-- `estimator_range = list(range(2, 21))`: 19 values. -/
def estimator_range : List ℕ := (List.range 19).map (fun i => i + 2)

/-- `criterion_options = ['gini','entropy']`. -/
def criterion_options : List String := ["gini", "entropy"]

/-- `max_features_options = [None, 'auto', 'sqrt', 'log2']`. -/
def max_features_options : List (Option String) :=
  [none, some "auto", some "sqrt", some "log2"]

/-- `max_depth_range = list(range(2, 21))`: 19 values. -/
def max_depth_range : List ℕ := (List.range 19).map (fun i => i + 2)

/-- One random-forest configuration:
(n_estimators, criterion, max_features, max_depth). -/
abbrev RfcConfig := ℕ × String × Option String × ℕ

/-- `param_dist`: the full 19 x 2 x 4 x 19 configuration space handed to
`RandomizedSearchCV`. -/
def param_dist : List RfcConfig :=
  estimator_range.flatMap fun e =>
    criterion_options.flatMap fun c =>
      max_features_options.flatMap fun m =>
        max_depth_range.map fun d => (e, c, m, d)

/-- Modelled from the spec: the searcher draws `N` distinct candidate
configurations from the space using the seeded permutation. -/
def sample_candidates {α : Type} (space : List α) (N seed : ℕ) : List α :=
  (shuffleSeeded space seed).take N

/-- Modelled from the spec: `RandomizedSearchCV(clf, space, cv=K, n_iter=N,
random_state=seed)` fit on `train`: each sampled candidate is evaluated by
one K-fold cross-validation pass over the training records, represented by
its list of validation slices. -/
def randomized_search {α β : Type} (space : List α) (N K seed : ℕ)
    (train : List β) : List (α × List (List ℕ)) :=
  (sample_candidates space N seed).map
    (fun c => (c, cross_val_score train.length K))

lemma param_dist_length : param_dist.length = 2888 := by
  simp only [param_dist, List.length_flatMap, List.length_map, List.map_map,
    Function.comp_def]
  simp [estimator_range, criterion_options, max_features_options,
    max_depth_range]
  rw [show ((fun x => 152) ∘ fun i : ℕ => i + 2) = fun _ : ℕ => (152 : ℕ) from rfl]
  rw [List.map_const']
  simp

/-- C9: when the sample count `N` is at most the size of the configuration
space and `K > 0`, randomized search evaluates exactly `N` candidates,
each scored by one K-fold cross-validation pass whose `K` validation
slices partition the training data; the notebook's space `param_dist` has
size 19 * 2 * 4 * 19 = 2888. -/
theorem randomized_search_evaluates_N {α β : Type} (space : List α)
    (N K seed : ℕ) (train : List β) (hN : N ≤ space.length) (hK : 0 < K) :
    (randomized_search space N K seed train).length = N ∧
    (∀ e ∈ randomized_search space N K seed train,
      e.2.length = K ∧ e.2.flatten = List.range train.length) ∧
    param_dist.length = 2888 := by
  obtain ⟨hlen, hflat, -⟩ := kfold_slices_spec train.length K hK
  refine ⟨?_, ?_, param_dist_length⟩
  · simp only [randomized_search, List.length_map, sample_candidates,
      List.length_take, shuffleSeeded_length]
    omega
  · intro e he
    simp only [randomized_search, List.mem_map] at he
    obtain ⟨c, -, rfl⟩ := he
    exact ⟨hlen, hflat⟩

/-- Witness for C9: the notebook's `n_iter=10` draw from `param_dist`
(2888 configurations) with `cv=10` on a 64-record training set evaluates
exactly 10 candidates. -/
theorem randomized_search_evaluates_N_witness :
    (10 ≤ param_dist.length ∧ 0 < 10) ∧
    (randomized_search param_dist 10 10 42 (List.range 64)).length = 10 := by
  have hlen : param_dist.length = 2888 := param_dist_length
  have h10 : 10 ≤ param_dist.length := by rw [hlen]; norm_num
  exact ⟨⟨h10, by norm_num⟩,
    (randomized_search_evaluates_N param_dist 10 10 42 (List.range 64)
      h10 (by norm_num)).1⟩

/-! ## Feature scaling

`StandardScaler` (one numeric feature column modelled; sklearn stores
`mean_` and `var_` with population variance, and `scale_ = sqrt var_`).
Because `sqrt var` is irrational in general, a transformed value
`(x - mean) / sqrt var` is represented exactly by the pair
`(x - mean, var)`: two transforms agree on every input iff their fitted
`(mean, var)` states agree. -/

/-- The fitted state of a `StandardScaler`. -/
structure ScalerState where
  mean : ℚ
  var : ℚ
deriving DecidableEq

/-- Mean of a feature column. -/
def listMean (xs : List ℚ) : ℚ := xs.sum / (xs.length : ℚ)

/-- Population variance (`ddof = 0`, as sklearn uses) of a feature
column. -/
def listVar (xs : List ℚ) : ℚ :=
  ((xs.map (fun x => (x - listMean xs) ^ 2)).sum) / (xs.length : ℚ)

/-- `StandardScaler.fit`: learn mean and variance from the given data. -/
def scaler_fit (xs : List ℚ) : ScalerState := ⟨listMean xs, listVar xs⟩

/-- `StandardScaler.transform`: center and scale with the frozen state;
`(x - mean) / sqrt var` is represented by `(x - mean, var)`.  The state is
read, never written. -/
def scaler_transform (st : ScalerState) (xs : List ℚ) : List (ℚ × ℚ) :=
  xs.map (fun x => (x - st.mean, st.var))

/-- The scaler method calls of the notebook cell, in source order:
`fit_transform` refits, `transform` only applies. -/
inductive ScalerOp
  | fitTransform (data : List ℚ)
  | transform (data : List ℚ)

/-- Run a sequence of scaler calls against an optional fitted state
(`none` = the fresh `StandardScaler()`).  Returns the final state and the
output of each call; a `transform` before any fit yields `none`. -/
def scaler_run : Option ScalerState → List ScalerOp →
    Option ScalerState × List (Option (List (ℚ × ℚ)))
  | st, [] => (st, [])
  | _, ScalerOp.fitTransform d :: ops =>
    let r := scaler_run (some (scaler_fit d)) ops
    (r.1, some (scaler_transform (scaler_fit d) d) :: r.2)
  | st, ScalerOp.transform d :: ops =>
    let r := scaler_run st ops
    (r.1, (st.map (fun s => scaler_transform s d)) :: r.2)

/-- The notebook's scaling cell:
`sc = StandardScaler()`; `X_train = sc.fit_transform(X_train)`;
`X_test = sc.transform(X_test)`; `X = sc.fit_transform(X)`;
`X_eval = sc.transform(X_eval)`.  Here `xpool` is the combined train/test
pool `X` and `xeval` the hold-out features. -/
def scaler_pipeline (xtrain xtest xpool xeval : List ℚ) :
    Option ScalerState × List (Option (List (ℚ × ℚ))) :=
  scaler_run none
    [ScalerOp.fitTransform xtrain, ScalerOp.transform xtest,
     ScalerOp.fitTransform xpool, ScalerOp.transform xeval]

/-- C6 counterexample: with training subset `[0,0]`, test subset `[4,4]`,
pool `[0,0,4,4]` and hold-out `[1]`, the scaler's fitted state at the end
of the cell is NOT the state fit on the training subset (its mean is 2,
the training mean is 0), and the hold-out subset is NOT transformed with
the training-set statistics. -/
theorem scaler_pipeline_counterexample :
    (scaler_pipeline [0, 0] [4, 4] [0, 0, 4, 4] [1]).1 ≠
        some (scaler_fit [0, 0]) ∧
    ((scaler_pipeline [0, 0] [4, 4] [0, 0, 4, 4] [1]).2)[3]? ≠
        some (some (scaler_transform (scaler_fit [0, 0]) [1])) := by
  have hstate : (scaler_pipeline [0, 0] [4, 4] [0, 0, 4, 4] [1]).1 =
      some (scaler_fit [0, 0, 4, 4]) := rfl
  have hout : ((scaler_pipeline [0, 0] [4, 4] [0, 0, 4, 4] [1]).2)[3]? =
      some (some (scaler_transform (scaler_fit [0, 0, 4, 4]) [1])) := rfl
  have hmean_pool : (scaler_fit [0, 0, 4, 4]).mean = 2 := by
    simp [scaler_fit, listMean]
    norm_num
  have hmean_train : (scaler_fit [0, 0]).mean = 0 := by
    simp [scaler_fit, listMean]
  constructor
  · rw [hstate]
    intro h
    have hm := congrArg ScalerState.mean (Option.some.inj h)
    rw [hmean_pool, hmean_train] at hm
    norm_num at hm
  · rw [hout]
    intro h
    have h1 := Option.some.inj (Option.some.inj h)
    have h2 : (1 : ℚ) - (scaler_fit [0, 0, 4, 4]).mean =
        1 - (scaler_fit [0, 0]).mean := by
      have h3 := congrArg (fun l => (l.headD (0, 0)).1) h1
      simpa [scaler_transform] using h3
    rw [hmean_pool, hmean_train] at h2
    norm_num at h2

/-- C6 (amended): the notebook fits the scaler twice.  The test subset is
transformed with the statistics fit on the training subset, but the pool
and the hold-out subset are transformed with statistics REFIT on the
combined train/test pool, which is also the state left in the scaler;
`transform` itself never alters the fitted parameters. -/
theorem scaler_pipeline_spec (xtrain xtest xpool xeval : List ℚ) :
    (scaler_pipeline xtrain xtest xpool xeval).1 = some (scaler_fit xpool) ∧
    (scaler_pipeline xtrain xtest xpool xeval).2 =
      [some (scaler_transform (scaler_fit xtrain) xtrain),
       some (scaler_transform (scaler_fit xtrain) xtest),
       some (scaler_transform (scaler_fit xpool) xpool),
       some (scaler_transform (scaler_fit xpool) xeval)] ∧
    (∀ (st : Option ScalerState) (d : List ℚ) (ops : List ScalerOp),
      (scaler_run st (ScalerOp.transform d :: ops)).1 =
        (scaler_run st ops).1) :=
  ⟨rfl, rfl, fun _ _ _ => rfl⟩

/-! ## Model export -/

/-- The modules imported by the notebook's import cell; `pickle` is not
among them. -/
def notebook_imports : List String :=
  ["os", "numpy", "pandas", "sklearn", "warnings", "matplotlib"]

/-- Whether the name `pickle` resolves in the notebook's namespace. -/
def pickle_imported : Bool := notebook_imports.contains "pickle"

/-- The enclosing notebook scope visible to `export_model`: the global
variable `rfc` the function body actually references. -/
structure NotebookScope (μ : Type) where
  rfc : μ

/-- What `pickle.dump(rfc, file_target, ...)` would serialize into
`Customer_Churn_<algorithm_name>.pkl` if `pickle` resolved: the
enclosing-scope `rfc`, not the `model` parameter. -/
def export_model_payload {μ : Type} (scope : NotebookScope μ) (_model : μ)
    (algorithm_name : String) : String × μ :=
  ("Customer_Churn_" ++ algorithm_name ++ ".pkl", scope.rfc)

/-- `export_model(model, algorithm_name)`: builds the target file name,
then calls `pickle.dump(rfc, file_target, ...)`.  Since `pickle` is
resolved in the notebook namespace at call time and was never imported,
every call raises `NameError`; the hypothetical successful path would
write the payload above. -/
def export_model {μ : Type} (scope : NotebookScope μ) (model : μ)
    (algorithm_name : String) : Except String (String × μ) :=
  if pickle_imported then
    Except.ok (export_model_payload scope model algorithm_name)
  else
    Except.error "NameError: name pickle is not defined"

/-- C10 (code bug): evaluated at a concrete call with the global `rfc`
holding model 0 and the passed model 1, `export_model` raises `NameError`
(the notebook never imports `pickle`); and even the hypothetical dump
writes the enclosing-scope `rfc` (0) — not the passed model (1) — under
`Customer_Churn_KNN.pkl`. -/
theorem export_model_bug :
    export_model (⟨0⟩ : NotebookScope ℕ) 1 "KNN" =
        Except.error "NameError: name pickle is not defined" ∧
    export_model_payload (⟨0⟩ : NotebookScope ℕ) 1 "KNN" =
        ("Customer_Churn_KNN.pkl", 0) ∧
    export_model_payload (⟨0⟩ : NotebookScope ℕ) 1 "KNN" ≠
        ("Customer_Churn_KNN.pkl", 1) := by
  refine ⟨rfl, rfl, ?_⟩
  intro h
  exact absurd (congrArg Prod.snd h) (by decide)

end DSP
